import Mathlib

/-!
Verification of the translation sub-gizmo of `egui-gizmo`
(`src/subgizmo/translation.rs`), shallowly embedded over real-number
3-vectors. The geometry helpers from `math.rs` and `common.rs`
(`round_to_interval`, `ray_to_ray`, `intersect_plane`, plane basis helpers,
hit-testing) are not part of the provided sources; where a claim needs them
they are modelled from the specification, and are marked as such.
-/

noncomputable section

namespace EguiGizmo

/-- 3-vector of reals, embedding `glam::DVec3`. -/
structure Vec3 where
  x : ℝ
  y : ℝ
  z : ℝ

namespace Vec3

def zero : Vec3 := ⟨0, 0, 0⟩

instance : Add Vec3 := ⟨fun a b => ⟨a.x + b.x, a.y + b.y, a.z + b.z⟩⟩

instance : Sub Vec3 := ⟨fun a b => ⟨a.x - b.x, a.y - b.y, a.z - b.z⟩⟩

instance : Neg Vec3 := ⟨fun a => ⟨-a.x, -a.y, -a.z⟩⟩

/-- Vector times scalar, as in `DVec3 * f64`. -/
instance : HMul Vec3 ℝ Vec3 := ⟨fun v a => ⟨v.x * a, v.y * a, v.z * a⟩⟩

/-- Vector divided by scalar, as in `DVec3 / f64`. -/
instance : HDiv Vec3 ℝ Vec3 := ⟨fun v a => ⟨v.x / a, v.y / a, v.z / a⟩⟩

def dot (a b : Vec3) : ℝ := a.x * b.x + a.y * b.y + a.z * b.z

def cross (a b : Vec3) : Vec3 :=
  ⟨a.y * b.z - a.z * b.y, a.z * b.x - a.x * b.z, a.x * b.y - a.y * b.x⟩

def length (v : Vec3) : ℝ := Real.sqrt (v.dot v)

theorem ext_xyz {a b : Vec3} (hx : a.x = b.x) (hy : a.y = b.y)
    (hz : a.z = b.z) : a = b := by
  cases a; cases b; simp_all

@[simp] theorem eq_iff (a b : Vec3) :
    a = b ↔ a.x = b.x ∧ a.y = b.y ∧ a.z = b.z := by
  constructor
  · rintro rfl; exact ⟨rfl, rfl, rfl⟩
  · rintro ⟨hx, hy, hz⟩; exact ext_xyz hx hy hz

@[simp] theorem add_x (a b : Vec3) : (a + b).x = a.x + b.x := rfl

@[simp] theorem add_y (a b : Vec3) : (a + b).y = a.y + b.y := rfl

@[simp] theorem add_z (a b : Vec3) : (a + b).z = a.z + b.z := rfl

@[simp] theorem sub_x (a b : Vec3) : (a - b).x = a.x - b.x := rfl

@[simp] theorem sub_y (a b : Vec3) : (a - b).y = a.y - b.y := rfl

@[simp] theorem sub_z (a b : Vec3) : (a - b).z = a.z - b.z := rfl

@[simp] theorem neg_x (a : Vec3) : (-a).x = -a.x := rfl

@[simp] theorem neg_y (a : Vec3) : (-a).y = -a.y := rfl

@[simp] theorem neg_z (a : Vec3) : (-a).z = -a.z := rfl

@[simp] theorem smul_x (v : Vec3) (a : ℝ) : (v * a).x = v.x * a := rfl

@[simp] theorem smul_y (v : Vec3) (a : ℝ) : (v * a).y = v.y * a := rfl

@[simp] theorem smul_z (v : Vec3) (a : ℝ) : (v * a).z = v.z * a := rfl

@[simp] theorem div_x (v : Vec3) (a : ℝ) : (v / a).x = v.x / a := rfl

@[simp] theorem div_y (v : Vec3) (a : ℝ) : (v / a).y = v.y / a := rfl

@[simp] theorem div_z (v : Vec3) (a : ℝ) : (v / a).z = v.z / a := rfl

@[simp] theorem zero_x : (zero).x = 0 := rfl

@[simp] theorem zero_y : (zero).y = 0 := rfl

@[simp] theorem zero_z : (zero).z = 0 := rfl

theorem dot_def (a b : Vec3) :
    a.dot b = a.x * b.x + a.y * b.y + a.z * b.z := rfl

theorem length_nonneg (v : Vec3) : 0 ≤ v.length := Real.sqrt_nonneg _

/-- `|a| * ‖v‖ = ‖v * a‖` for vector-by-scalar multiplication. -/
theorem length_smul (v : Vec3) (a : ℝ) : (v * a).length = |a| * v.length := by
  unfold length dot
  have h : (v * a).x * (v * a).x + (v * a).y * (v * a).y + (v * a).z * (v * a).z
      = a ^ 2 * (v.x * v.x + v.y * v.y + v.z * v.z) := by
    simp only [smul_x, smul_y, smul_z]; ring
  rw [h, Real.sqrt_mul (sq_nonneg a), Real.sqrt_sq_eq_abs]

theorem length_div (v : Vec3) (a : ℝ) : (v / a).length = v.length / |a| := by
  unfold length dot
  have h : (v / a).x * (v / a).x + (v / a).y * (v / a).y + (v / a).z * (v / a).z
      = (v.x * v.x + v.y * v.y + v.z * v.z) / a ^ 2 := by
    simp only [div_x, div_y, div_z]; ring
  have hnn : (0 : ℝ) ≤ v.x * v.x + v.y * v.y + v.z * v.z := by nlinarith [sq_nonneg v.x, sq_nonneg v.y, sq_nonneg v.z]
  rw [h, Real.sqrt_div hnn, Real.sqrt_sq_eq_abs]

end Vec3

/-- A pointer ray: origin and direction (`Ray` in the crate). -/
structure Ray where
  origin : Vec3
  direction : Vec3

/-- `TransformKind` of a sub-gizmo: a single axis arrow or a plane quad. -/
inductive TransformKind where
  | Axis : TransformKind
  | Plane : TransformKind
deriving DecidableEq

/-- `GizmoMode` tag carried in results. -/
inductive GizmoMode where
  | Rotate : GizmoMode
  | Translate : GizmoMode
  | Scale : GizmoMode
deriving DecidableEq

/-- Output of the external hit-test collaborators `pick_arrow` / `pick_plane`
(`hit_test_* -> \x7bpicked, t, visibility, point\x7d` in the spec). -/
structure PickResult where
  picked : Bool
  t : ℝ
  visibility : ℝ
  subgizmo_point : Vec3

/-- `TranslationState`: per-handle interaction state
(`start_point`, `last_point`, `current_delta`). -/
structure TranslationState where
  start_point : Vec3
  last_point : Vec3
  current_delta : Vec3

/-- The configuration a translation sub-gizmo reads. Fields `translation`,
`rotation`, `scale`, `snapping`, `snap_distance`, `local_space`, `direction`
and `transform_kind` embed the corresponding `GizmoConfig`/`SubGizmoConfig`
fields. The rotation is modelled abstractly as the linear map it applies to
vectors. The fields `normal`, `binormal0`, `tangent0` and `plane_origin`
are modelled from the spec: they stand for the external helpers
`subgizmo.normal()`, `plane_binormal(direction)`, `plane_tangent(direction)`
and `plane_global_origin(subgizmo)` (plane basis helpers and the plane's
world-space origin, §6 of the spec), whose source is not provided. -/
structure SubGizmoConfig where
  translation : Vec3
  rotation : Vec3 → Vec3
  scale : Vec3
  snapping : Bool
  snap_distance : ℝ
  local_space : Bool
  direction : Vec3
  transform_kind : TransformKind
  normal : Vec3
  binormal0 : Vec3
  tangent0 : Vec3
  plane_origin : Vec3

/-- `GizmoResult`: the per-frame output bundle. -/
structure GizmoResult where
  scale : Vec3
  rotation : Vec3 → Vec3
  translation : Vec3
  mode : GizmoMode
  value : Vec3

/-- Modelled from the spec: `round_to_interval` (`quantize_to_interval` in
the spec, from the missing `math.rs`) maps a scalar to the nearest multiple
of `interval`; if `interval ≤ 0` it returns the value unchanged. -/
def round_to_interval (value interval : ℝ) : ℝ :=
  if interval ≤ 0 then value else (round (value / interval) : ℤ) * interval

/-- Modelled from the spec: `ray_to_ray` (missing `math.rs`) returns the
parameters of the closest points of two lines `a1 + ta*ad` and `b1 + tb*bd`,
obtained by solving the 2×2 normal-equations system built from the dot
products of the two directions and the origin offset; it is total (robust
even when the lines do not intersect), falling back to `ta = 0` and the
projection of `a1` onto line `b` when the system is degenerate (parallel
directions). -/
def ray_to_ray (a1 ad b1 bd : Vec3) : ℝ × ℝ :=
  let w := a1 - b1
  let a := ad.dot ad
  let b := ad.dot bd
  let c := bd.dot bd
  let d := ad.dot w
  let e := bd.dot w
  let det := a * c - b * b
  if det = 0 then (0, e / c) else ((b * e - c * d) / det, (a * e - b * d) / det)

/-- Modelled from the spec: `intersect_plane` (missing `math.rs`)
intersects a ray with the plane through `plane_origin` with normal
`plane_normal`; it fails exactly when the ray direction is parallel to the
plane (perpendicular to the normal), else yields the ray parameter of the
intersection point. -/
def intersect_plane (plane_normal plane_origin ray_origin ray_direction : Vec3) :
    Option ℝ :=
  if plane_normal.dot ray_direction = 0 then none
  else some ((plane_origin - ray_origin).dot plane_normal / plane_normal.dot ray_direction)

/-- `point_on_axis`: nearest point, on the line through the configured
translation origin along the handle normal, to the given ray. -/
def point_on_axis (subgizmo : SubGizmoConfig) (ray : Ray) : Vec3 :=
  let origin := subgizmo.translation
  let direction := subgizmo.normal
  let ts := ray_to_ray ray.origin ray.direction origin direction
  origin + direction * ts.2

/-- `point_on_plane`: ray–plane intersection point, if any. -/
def point_on_plane (plane_normal plane_origin : Vec3) (ray : Ray) : Option Vec3 :=
  match intersect_plane plane_normal plane_origin ray.origin ray.direction with
  | none => none
  | some t => some (ray.origin + ray.direction * t)

/-- `snap_translation_vector`: axis-mode snap of a delta. -/
def snap_translation_vector (subgizmo : SubGizmoConfig) (new_delta : Vec3) : Vec3 :=
  let delta_length := new_delta.length
  if delta_length > 1e-5 then
    new_delta / delta_length * round_to_interval delta_length subgizmo.snap_distance
  else new_delta

/-- The binormal basis vector used by the plane snap: `plane_binormal`
of the handle direction, rotated when in local space (lines 126–131). -/
def plane_basis_binormal (subgizmo : SubGizmoConfig) : Vec3 :=
  if subgizmo.local_space then subgizmo.rotation subgizmo.binormal0
  else subgizmo.binormal0

/-- The tangent basis vector used by the plane snap: `plane_tangent`
of the handle direction, rotated when in local space (lines 126–131). -/
def plane_basis_tangent (subgizmo : SubGizmoConfig) : Vec3 :=
  if subgizmo.local_space then subgizmo.rotation subgizmo.tangent0
  else subgizmo.tangent0

/-- `snap_translation_plane`: plane-mode snap of a delta (lines 125–146). -/
def snap_translation_plane (subgizmo : SubGizmoConfig) (new_delta : Vec3) : Vec3 :=
  let binormal := plane_basis_binormal subgizmo
  let tangent := plane_basis_tangent subgizmo
  let cb := new_delta.cross (-binormal)
  let ct := new_delta.cross tangent
  let lb := cb.length
  let lt := ct.length
  let n := subgizmo.normal
  if lb > 1e-5 ∧ lt > 1e-5 then
    binormal * round_to_interval lt subgizmo.snap_distance * ((ct / lt).dot n)
      + tangent * round_to_interval lb subgizmo.snap_distance * ((cb / lb).dot n)
  else new_delta

/-- `pick` (lines 16–35): the hit-test collaborator's output is passed in as
`pick_result`; returns the opacity set on the sub-gizmo, the freshly reset
interaction state written by `update_state_with`, and the optional hit
parameter. The incoming state is fully overwritten, so it is not a
parameter. -/
def pick (pick_result : PickResult) : ℝ × TranslationState × Option ℝ :=
  (pick_result.visibility,
   { start_point := pick_result.subgizmo_point
     last_point := pick_result.subgizmo_point
     current_delta := Vec3.zero },
   if pick_result.picked then some pick_result.t else none)

/-- The optional raw drag point of an update: `point_on_axis` for an axis
handle (always succeeds), the ray–plane intersection for a plane handle
(lines 40–44). -/
def raw_point (subgizmo : SubGizmoConfig) (ray : Ray) : Option Vec3 :=
  if subgizmo.transform_kind = TransformKind.Axis then
    some (point_on_axis subgizmo ray)
  else point_on_plane subgizmo.normal subgizmo.plane_origin ray

/-- The successful continuation of `update` (lines 46–70), given the raw
point: computes the delta from `start_point`, optionally snaps it (and then
moves the point back to `start_point + delta`), writes the new state, and
builds the `GizmoResult`. `state` is the copy read at line 38, so the
emitted `value` is the `current_delta` read *before* this update's write,
and the emitted translation accumulates from the previous `last_point`. -/
def update_at (subgizmo : SubGizmoConfig) (state : TranslationState)
    (raw : Vec3) : TranslationState × GizmoResult :=
  let nd0 := raw - state.start_point
  let new_delta :=
    if subgizmo.snapping then
      (if subgizmo.transform_kind = TransformKind.Axis then
        snap_translation_vector subgizmo nd0
      else snap_translation_plane subgizmo nd0)
    else nd0
  let new_point :=
    if subgizmo.snapping then state.start_point + new_delta else raw
  ({ state with last_point := new_point, current_delta := new_delta },
   { scale := subgizmo.scale
     rotation := subgizmo.rotation
     translation := subgizmo.translation + new_point - state.last_point
     mode := GizmoMode.Translate
     value := state.current_delta })

/-- `update` (lines 37–71): fails exactly when the raw point computation
fails; otherwise returns the new stored state and the emitted result. -/
def update (subgizmo : SubGizmoConfig) (state : TranslationState) (ray : Ray) :
    Option (TranslationState × GizmoResult) :=
  (raw_point subgizmo ray).map (update_at subgizmo state)

/-- The interaction state stored after a call to `update`: unchanged when
the update produced nothing (the state write at line 57 is only reached
after a successful point computation). -/
def update_state (subgizmo : SubGizmoConfig) (state : TranslationState)
    (ray : Ray) : TranslationState :=
  ((update subgizmo state ray).map Prod.fst).getD state

/-- Concrete axis-handle configuration used by witnesses: +X axis handle at
the origin, snapping off. -/
def axisConfig : SubGizmoConfig where
  translation := Vec3.zero
  rotation := id
  scale := ⟨1, 1, 1⟩
  snapping := false
  snap_distance := 1
  local_space := false
  direction := ⟨1, 0, 0⟩
  transform_kind := TransformKind.Axis
  normal := ⟨1, 0, 0⟩
  binormal0 := ⟨0, 0, 1⟩
  tangent0 := ⟨0, 1, 0⟩
  plane_origin := Vec3.zero

/-- Interaction state right after a pick whose grab point was `(2,0,0)`. -/
def pickedState : TranslationState where
  start_point := ⟨2, 0, 0⟩
  last_point := ⟨2, 0, 0⟩
  current_delta := Vec3.zero

/-- A ray whose closest point to the x-axis is `(5,0,0)`. -/
def axisRay : Ray where
  origin := ⟨5, 0, 10⟩
  direction := ⟨0, 0, -1⟩

/-- Concrete plane-handle configuration (plane normal +Z) used by witnesses. -/
def planeConfig : SubGizmoConfig where
  translation := Vec3.zero
  rotation := id
  scale := ⟨1, 1, 1⟩
  snapping := false
  snap_distance := 1
  local_space := false
  direction := ⟨0, 0, 1⟩
  transform_kind := TransformKind.Plane
  normal := ⟨0, 0, 1⟩
  binormal0 := ⟨1, 0, 0⟩
  tangent0 := ⟨0, 1, 0⟩
  plane_origin := Vec3.zero

/-- A ray running along +X, parallel to the plane with normal +Z. -/
def parallelRay : Ray where
  origin := ⟨0, 0, 3⟩
  direction := ⟨1, 0, 0⟩

/-- The state stored by `update axisConfig pickedState axisRay`. -/
def stateAfterFirst : TranslationState where
  start_point := ⟨2, 0, 0⟩
  last_point := ⟨5, 0, 0⟩
  current_delta := ⟨3, 0, 0⟩

/-- The result emitted by `update axisConfig pickedState axisRay`. -/
def firstResult : GizmoResult where
  scale := ⟨1, 1, 1⟩
  rotation := id
  translation := ⟨3, 0, 0⟩
  mode := GizmoMode.Translate
  value := ⟨0, 0, 0⟩

/-- The result emitted by a second update with the same ray. -/
def secondResult : GizmoResult where
  scale := ⟨1, 1, 1⟩
  rotation := id
  translation := ⟨0, 0, 0⟩
  mode := GizmoMode.Translate
  value := ⟨3, 0, 0⟩

theorem eval_update_first :
    update axisConfig pickedState axisRay = some (stateAfterFirst, firstResult) := by
  simp [update, raw_point, update_at, point_on_axis, ray_to_ray, axisConfig,
    pickedState, axisRay, stateAfterFirst, firstResult, Vec3.dot, Vec3.zero]
  norm_num

theorem eval_update_second :
    update axisConfig stateAfterFirst axisRay = some (stateAfterFirst, secondResult) := by
  simp [update, raw_point, update_at, point_on_axis, ray_to_ray, axisConfig,
    stateAfterFirst, axisRay, secondResult, Vec3.dot, Vec3.zero]
  norm_num

theorem update_eq_some_iff (c : SubGizmoConfig) (s : TranslationState) (ray : Ray)
    (s' : TranslationState) (r : GizmoResult) :
    update c s ray = some (s', r) ↔
      ∃ v, raw_point c ray = some v ∧ update_at c s v = (s', r) := by
  simp [update, Option.map_eq_some']

/-- C1: for every successful update, the emitted translation is the
configured previous translation plus the difference between the newly
computed (possibly snapped) point (which is the stored new `last_point`)
and the `last_point` stored by the previous pick/update. -/
theorem translation_update_accumulates (c : SubGizmoConfig)
    (s s' : TranslationState) (ray : Ray) (r : GizmoResult)
    (h : update c s ray = some (s', r)) :
    r.translation = c.translation + (s'.last_point - s.last_point) := by
  rw [update_eq_some_iff] at h
  obtain ⟨v, hv, hat⟩ := h
  simp only [update_at] at hat
  rw [Prod.mk.injEq] at hat
  obtain ⟨h1, h2⟩ := hat
  rw [← h2, ← h1]
  apply Vec3.ext_xyz <;> simp <;> ring

/-- C1 witness: axis handle along +X at the origin with snapping off, grab
point `(2,0,0)`, update whose axis point is `(5,0,0)`: the translation
increases by exactly `(3,0,0)`. -/
theorem translation_update_accumulates_witness :
    update axisConfig pickedState axisRay = some (stateAfterFirst, firstResult) ∧
    firstResult.translation =
      axisConfig.translation + (stateAfterFirst.last_point - pickedState.last_point) ∧
    firstResult.translation = ⟨3, 0, 0⟩ := by
  refine ⟨eval_update_first,
    translation_update_accumulates axisConfig pickedState stateAfterFirst axisRay
      firstResult eval_update_first, ?_⟩
  simp [firstResult]

/-- C4: every call to `pick`, hit or miss, resets the interaction state to
`start_point = last_point = hit point` and `current_delta = 0`. -/
theorem pick_resets_state (pr : PickResult) :
    ((pick pr).2.1).start_point = pr.subgizmo_point ∧
    ((pick pr).2.1).last_point = pr.subgizmo_point ∧
    ((pick pr).2.1).current_delta = Vec3.zero :=
  ⟨rfl, rfl, rfl⟩

/-- C5: the invariant `current_delta = last_point - start_point` holds on
the interaction state after every pick and after every successful update. -/
theorem translation_current_delta_invariant :
    (∀ pr : PickResult,
      ((pick pr).2.1).current_delta =
        ((pick pr).2.1).last_point - ((pick pr).2.1).start_point) ∧
    (∀ (c : SubGizmoConfig) (s : TranslationState) (ray : Ray)
        (s' : TranslationState) (r : GizmoResult),
      update c s ray = some (s', r) →
      s'.current_delta = s'.last_point - s'.start_point) := by
  constructor
  · intro pr
    apply Vec3.ext_xyz <;> simp [pick]
  · intro c s ray s' r h
    rw [update_eq_some_iff] at h
    obtain ⟨v, hv, hat⟩ := h
    simp only [update_at] at hat
    rw [Prod.mk.injEq] at hat
    obtain ⟨h1, h2⟩ := hat
    rw [← h1]
    by_cases hs : c.snapping
    · apply Vec3.ext_xyz <;> simp [hs]
    · apply Vec3.ext_xyz <;> simp [hs]

/-- C5 witness: the invariant at the concrete first update. -/
theorem translation_current_delta_invariant_witness :
    stateAfterFirst.current_delta =
      stateAfterFirst.last_point - stateAfterFirst.start_point :=
  translation_current_delta_invariant.2 axisConfig pickedState axisRay
    stateAfterFirst firstResult eval_update_first

/-- C6: for a plane handle, a ray parallel to the plane makes `update`
return nothing for the frame, and the stored state is unchanged. -/
theorem plane_update_parallel_ray_none (c : SubGizmoConfig)
    (s : TranslationState) (ray : Ray)
    (hk : c.transform_kind = TransformKind.Plane)
    (hpar : c.normal.dot ray.direction = 0) :
    update c s ray = none ∧ update_state c s ray = s := by
  have hraw : raw_point c ray = none := by
    simp [raw_point, hk, point_on_plane, intersect_plane, hpar]
  constructor
  · simp [update, hraw]
  · simp [update_state, update, hraw]

/-- C6 witness: plane handle with normal +Z and a ray running along +X. -/
theorem plane_update_parallel_ray_none_witness :
    planeConfig.transform_kind = TransformKind.Plane ∧
    planeConfig.normal.dot parallelRay.direction = 0 ∧
    (update planeConfig pickedState parallelRay = none ∧
      update_state planeConfig pickedState parallelRay = pickedState) := by
  refine ⟨rfl, ?_, ?_⟩
  · simp [planeConfig, parallelRay, Vec3.dot]
  · exact plane_update_parallel_ray_none planeConfig pickedState parallelRay rfl
      (by simp [planeConfig, parallelRay, Vec3.dot])

/-- C9: `pick` returns `some` with the hit parameter exactly when the
hit-test collaborator reports a positive pick, and nothing on a miss. -/
theorem pick_some_iff_picked (pr : PickResult) :
    (∀ t0 : ℝ, (pick pr).2.2 = some t0 ↔ (pr.picked = true ∧ t0 = pr.t)) ∧
    (pr.picked = false → (pick pr).2.2 = none) := by
  constructor
  · intro t0
    by_cases h : pr.picked = true <;> simp [pick, h, eq_comm]
  · intro h
    simp [pick, h]

/-- C9 witness: a positive pick with hit parameter `1.5`. -/
theorem pick_some_iff_picked_witness :
    (pick (PickResult.mk true 1.5 0.8 ⟨2, 0, 0⟩)).2.2 = some (1.5 : ℝ) :=
  ((pick_some_iff_picked (PickResult.mk true 1.5 0.8 ⟨2, 0, 0⟩)).1 1.5).mpr
    ⟨rfl, rfl⟩

/-- C10: for an axis handle `update` always produces a result: the
closest-point-on-axis computation has no failure branch. -/
theorem axis_update_always_some (c : SubGizmoConfig) (s : TranslationState)
    (ray : Ray) (hk : c.transform_kind = TransformKind.Axis) :
    (update c s ray).isSome := by
  simp [update, raw_point, hk]

/-- C10 witness: the concrete axis update succeeds. -/
theorem axis_update_always_some_witness :
    (update axisConfig pickedState axisRay).isSome :=
  axis_update_always_some axisConfig pickedState axisRay rfl

/-- C2 counterexample: the first update after the pick computes this frame's
delta `(3,0,0)` (stored as `current_delta`), but the emitted `value` is the
stale pre-update delta `(0,0,0)`: the Result does not carry the delta
computed this frame. -/
theorem translation_result_value_stale_cex :
    update axisConfig pickedState axisRay = some (stateAfterFirst, firstResult) ∧
    firstResult.value ≠ stateAfterFirst.current_delta := by
  refine ⟨eval_update_first, ?_⟩
  simp [firstResult, stateAfterFirst]

/-- C2 (amended): every successful update emits the configured scale and
rotation unchanged, mode `Translate`, and as `value` the accumulated delta
that was stored by the previous pick/update (the state read at the start of
the call), not the delta computed this frame. -/
theorem translation_result_fields (c : SubGizmoConfig) (s : TranslationState)
    (ray : Ray) (s' : TranslationState) (r : GizmoResult)
    (h : update c s ray = some (s', r)) :
    r.scale = c.scale ∧ r.rotation = c.rotation ∧
    r.mode = GizmoMode.Translate ∧ r.value = s.current_delta := by
  rw [update_eq_some_iff] at h
  obtain ⟨v, hv, hat⟩ := h
  simp only [update_at] at hat
  rw [Prod.mk.injEq] at hat
  obtain ⟨h1, h2⟩ := hat
  rw [← h2]
  exact ⟨rfl, rfl, rfl, rfl⟩

/-- C2 witness: the emitted fields of the concrete first update. -/
theorem translation_result_fields_witness :
    firstResult.scale = axisConfig.scale ∧
    firstResult.rotation = axisConfig.rotation ∧
    firstResult.mode = GizmoMode.Translate ∧
    firstResult.value = pickedState.current_delta :=
  translation_result_fields axisConfig pickedState axisRay stateAfterFirst
    firstResult eval_update_first

/-- C8 counterexample: two successive updates with the identical ray and
configuration emit Results with different translations (`(3,0,0)` then
`(0,0,0)`) and different values (`(0,0,0)` then `(3,0,0)`): the emitted
Results are not identical. -/
theorem update_twice_same_ray_cex :
    update axisConfig pickedState axisRay = some (stateAfterFirst, firstResult) ∧
    update axisConfig stateAfterFirst axisRay = some (stateAfterFirst, secondResult) ∧
    firstResult.translation ≠ secondResult.translation ∧
    firstResult.value ≠ secondResult.value := by
  refine ⟨eval_update_first, eval_update_second, ?_, ?_⟩
  · simp [firstResult, secondResult]
  · simp [firstResult, secondResult]

/-- C8 (amended): after a successful update, calling `update` again with the
identical ray and unchanged configuration stores the identical interaction
state (no frame-to-frame drift) and emits the configured translation
unchanged, with `value` the delta stored by the first call; the two emitted
Results themselves may differ when the first call changed the state. -/
theorem update_second_call_no_drift (c : SubGizmoConfig) (s : TranslationState)
    (ray : Ray) (s1 : TranslationState) (r1 : GizmoResult)
    (h : update c s ray = some (s1, r1)) :
    update c s1 ray = some (s1,
      { scale := c.scale
        rotation := c.rotation
        translation := c.translation
        mode := GizmoMode.Translate
        value := s1.current_delta }) := by
  rw [update_eq_some_iff] at h
  obtain ⟨v, hv, hat⟩ := h
  simp only [update_at] at hat
  rw [Prod.mk.injEq] at hat
  obtain ⟨h1, h2⟩ := hat
  rw [update_eq_some_iff]
  refine ⟨v, hv, ?_⟩
  simp only [update_at]
  rw [Prod.mk.injEq]
  subst h1
  constructor
  · rfl
  · rw [GizmoResult.mk.injEq]
    refine ⟨rfl, rfl, ?_, rfl, rfl⟩
    apply Vec3.ext_xyz <;> simp

/-- C8 witness: the concrete second update stores the same state and emits
the configured translation and the stored delta. -/
theorem update_second_call_no_drift_witness :
    update axisConfig stateAfterFirst axisRay = some (stateAfterFirst,
      { scale := axisConfig.scale
        rotation := axisConfig.rotation
        translation := axisConfig.translation
        mode := GizmoMode.Translate
        value := stateAfterFirst.current_delta }) :=
  update_second_call_no_drift axisConfig pickedState axisRay stateAfterFirst
    firstResult eval_update_first

/-- Concrete axis configuration with snapping on, snap distance 1. -/
def snapAxisConfig : SubGizmoConfig := { axisConfig with snapping := true }

/-- Concrete delta of length `2.4` used by the axis-snap witness. -/
def vSnap : Vec3 := ⟨2.4, 0, 0⟩

/-- C7: axis snap. When `|delta| > 1e-5` the snapped delta is
`unit(delta) * quantize_to_interval(|delta|, d)` and its length is an
integer multiple of the snap distance `d` (for `d > 0`); when
`|delta| ≤ 1e-5` the delta is returned unchanged. -/
theorem snap_translation_vector_spec (c : SubGizmoConfig) (delta : Vec3) :
    ((1e-5 : ℝ) < delta.length →
      snap_translation_vector c delta =
        delta / delta.length * round_to_interval delta.length c.snap_distance ∧
      (0 < c.snap_distance → ∃ k : ℤ,
        (snap_translation_vector c delta).length = (k : ℝ) * c.snap_distance)) ∧
    (delta.length ≤ 1e-5 → snap_translation_vector c delta = delta) := by
  constructor
  · intro hlen
    have hgt : delta.length > 1e-5 := hlen
    have h1 : snap_translation_vector c delta =
        delta / delta.length * round_to_interval delta.length c.snap_distance := by
      simp [snap_translation_vector, hgt]
    refine ⟨h1, ?_⟩
    intro hd
    refine ⟨|round (delta.length / c.snap_distance)|, ?_⟩
    have hpos : (0 : ℝ) < delta.length := lt_trans (by norm_num) hlen
    have hq : round_to_interval delta.length c.snap_distance
        = ((round (delta.length / c.snap_distance) : ℤ) : ℝ) * c.snap_distance := by
      rw [round_to_interval, if_neg (not_le.mpr hd)]
    rw [h1, Vec3.length_smul, Vec3.length_div, abs_of_pos hpos,
      div_self (ne_of_gt hpos), mul_one, hq, abs_mul, abs_of_pos hd,
      Int.cast_abs]
  · intro h
    simp [snap_translation_vector, not_lt.mpr h]

/-- C7 witness: snapping a delta of length `2.4` with snap distance 1. -/
theorem snap_translation_vector_spec_witness :
    (1e-5 : ℝ) < vSnap.length ∧
    (snap_translation_vector snapAxisConfig vSnap =
        vSnap / vSnap.length *
          round_to_interval vSnap.length snapAxisConfig.snap_distance ∧
      (0 < snapAxisConfig.snap_distance → ∃ k : ℤ,
        (snap_translation_vector snapAxisConfig vSnap).length =
          (k : ℝ) * snapAxisConfig.snap_distance)) := by
  have hlen : (1e-5 : ℝ) < vSnap.length := by
    have h24 : vSnap.length = 2.4 := by
      show Real.sqrt _ = 2.4
      rw [show (vSnap.dot vSnap : ℝ) = 2.4 ^ 2 by norm_num [Vec3.dot, vSnap],
        Real.sqrt_sq (by norm_num)]
    rw [h24]; norm_num
  exact ⟨hlen, (snap_translation_vector_spec snapAxisConfig vSnap).1 hlen⟩

theorem Vec3.dot_div (v : Vec3) (a : ℝ) (w : Vec3) :
    (v / a).dot w = v.dot w / a := by
  simp [Vec3.dot]; ring

theorem Vec3.neg_dot (v w : Vec3) : (-v).dot w = -(v.dot w) := by
  simp [Vec3.dot]; ring

/-- Vector triple product: `(a × b) × n = b (a·n) − a (b·n)`. -/
theorem Vec3.cross_cross (a b n : Vec3) :
    (a.cross b).cross n = b * (a.dot n) - a * (b.dot n) := by
  apply Vec3.ext_xyz <;> simp [Vec3.cross, Vec3.dot] <;> ring

/-- A vector whose cross product with a unit vector `n` vanishes is the
multiple of `n` given by its dot product with `n`. -/
theorem Vec3.eq_smul_normal {v n : Vec3} (h : v.cross n = Vec3.zero)
    (hn : n.dot n = 1) : v = n * (v.dot n) := by
  have h1 : v.y * n.z - v.z * n.y = 0 := by
    have := congrArg Vec3.x h
    simpa [Vec3.cross] using this
  have h2 : v.z * n.x - v.x * n.z = 0 := by
    have := congrArg Vec3.y h
    simpa [Vec3.cross] using this
  have h3 : v.x * n.y - v.y * n.x = 0 := by
    have := congrArg Vec3.z h
    simpa [Vec3.cross] using this
  have hnn : n.x * n.x + n.y * n.y + n.z * n.z = 1 := hn
  apply Vec3.ext_xyz
  · simp only [Vec3.smul_x, Vec3.dot]
    linear_combination (-v.x) * hnn + n.y * h3 - n.z * h2
  · simp only [Vec3.smul_y, Vec3.dot]
    linear_combination (-v.y) * hnn - n.x * h3 + n.z * h1
  · simp only [Vec3.smul_z, Vec3.dot]
    linear_combination (-v.z) * hnn + n.x * h2 - n.y * h1

/-- A nonzero multiple of a unit normal, normalized, dotted with that
normal, is its own sign. -/
theorem unit_dot_eq_sign {v n : Vec3} (hn : n.dot n = 1)
    (hv : v = n * (v.dot n)) (hpos : 0 < v.length) :
    (v / v.length).dot n = Real.sign ((v / v.length).dot n) := by
  have hnlen : n.length = 1 := by rw [Vec3.length, hn, Real.sqrt_one]
  have hlen : v.length = |v.dot n| := by
    conv_lhs => rw [hv]
    rw [Vec3.length_smul, hnlen, mul_one]
  have hk0 : v.dot n ≠ 0 := by
    intro h0
    rw [hlen, h0, abs_zero] at hpos
    exact lt_irrefl 0 hpos
  rw [Vec3.dot_div, hlen]
  rcases lt_or_gt_of_ne hk0 with hneg | hposk
  · rw [abs_of_neg hneg]
    have hdiv : v.dot n / -(v.dot n) = -1 := by
      field_simp
    rw [hdiv, Real.sign_of_neg (by norm_num)]
  · rw [abs_of_pos hposk, div_self (ne_of_gt hposk),
      Real.sign_of_pos (by norm_num)]

/-- The plane snap as the specification states it (§4.3), with the
dot-with-normal factors replaced by their signs:
`binormal * quantize_to_interval(lt, snap_distance) * sign(ct/lt · n)
 + tangent * quantize_to_interval(lb, snap_distance) * sign(cb/lb · n)`,
falling back to the unsnapped delta when either cross-product magnitude is
at most `1e-5`. -/
def snap_translation_plane_sign_spec (subgizmo : SubGizmoConfig)
    (new_delta : Vec3) : Vec3 :=
  let binormal := plane_basis_binormal subgizmo
  let tangent := plane_basis_tangent subgizmo
  let cb := new_delta.cross (-binormal)
  let ct := new_delta.cross tangent
  let lb := cb.length
  let lt := ct.length
  let n := subgizmo.normal
  if lb > 1e-5 ∧ lt > 1e-5 then
    binormal * round_to_interval lt subgizmo.snap_distance *
        Real.sign ((ct / lt).dot n)
      + tangent * round_to_interval lb subgizmo.snap_distance *
        Real.sign ((cb / lb).dot n)
  else new_delta

/-- C3: for a unit handle normal and a delta and in-plane basis orthogonal
to it (the situation of every delta the plane handle passes to the snap),
the plane snap computed by the code equals the specification's
sign-resolved formula, and any delta with either cross-product magnitude at
most `1e-5` is returned unsnapped. -/
theorem snap_translation_plane_matches_sign_spec (c : SubGizmoConfig)
    (delta : Vec3)
    (hn : c.normal.dot c.normal = 1)
    (hd : delta.dot c.normal = 0)
    (hb : (plane_basis_binormal c).dot c.normal = 0)
    (ht : (plane_basis_tangent c).dot c.normal = 0) :
    snap_translation_plane c delta = snap_translation_plane_sign_spec c delta := by
  simp only [snap_translation_plane, snap_translation_plane_sign_spec]
  split_ifs with hcond
  · obtain ⟨hlb, hlt⟩ := hcond
    have hct0 : (delta.cross (plane_basis_tangent c)).cross c.normal = Vec3.zero := by
      rw [Vec3.cross_cross, hd, ht]
      apply Vec3.ext_xyz <;> simp
    have hcb0 : (delta.cross (-plane_basis_binormal c)).cross c.normal = Vec3.zero := by
      rw [Vec3.cross_cross, hd, Vec3.neg_dot, hb]
      apply Vec3.ext_xyz <;> simp
    have hctn := Vec3.eq_smul_normal hct0 hn
    have hcbn := Vec3.eq_smul_normal hcb0 hn
    have hsign_t := unit_dot_eq_sign hn hctn (lt_trans (by norm_num) hlt)
    have hsign_b := unit_dot_eq_sign hn hcbn (lt_trans (by norm_num) hlb)
    rw [← hsign_t, ← hsign_b]
  · rfl

/-- Concrete in-plane delta used by the plane-snap witness. -/
def vPlane : Vec3 := ⟨1.3, 2.4, 0⟩

/-- C3 witness: plane handle with normal +Z, basis +X/+Y, delta
`(1.3, 2.4, 0)`: the code's plane snap agrees with the sign-resolved
specification formula. -/
theorem snap_translation_plane_matches_sign_spec_witness :
    (planeConfig.normal.dot planeConfig.normal = 1 ∧
     vPlane.dot planeConfig.normal = 0 ∧
     (plane_basis_binormal planeConfig).dot planeConfig.normal = 0 ∧
     (plane_basis_tangent planeConfig).dot planeConfig.normal = 0) ∧
    snap_translation_plane planeConfig vPlane =
      snap_translation_plane_sign_spec planeConfig vPlane := by
  have hn : planeConfig.normal.dot planeConfig.normal = 1 := by
    norm_num [Vec3.dot, planeConfig]
  have hd : vPlane.dot planeConfig.normal = 0 := by
    norm_num [Vec3.dot, planeConfig, vPlane]
  have hb : (plane_basis_binormal planeConfig).dot planeConfig.normal = 0 := by
    norm_num [plane_basis_binormal, Vec3.dot, planeConfig]
  have ht : (plane_basis_tangent planeConfig).dot planeConfig.normal = 0 := by
    norm_num [plane_basis_tangent, Vec3.dot, planeConfig]
  exact ⟨⟨hn, hd, hb, ht⟩,
    snap_translation_plane_matches_sign_spec planeConfig vPlane hn hd hb ht⟩

end EguiGizmo
